import Mathlib

/-!
Verification of the escalation subsystem of the forum-guard bot.

The definitions below are a shallow embedding of the Python source:
`src/cogs/escalation.py` (scheduler, evaluator, reply classifier, live
listener) and `src/utils/database_handler.py` (the escalation store).
Thread ages are rationals (the source divides a float time difference by
3600); threshold hours are integers (SQLite INTEGER columns).  A missing
`thread_escalation_state` row is `Option.none`.
-/

namespace ForumGuard

/-- Row of the `thread_escalation_state` table
(`database_handler.py`, `CREATE TABLE thread_escalation_state`). -/
structure EscalationState where
  tier_1_executed : Bool
  tier_2_executed : Bool
  last_non_op_message : Option Int
  last_community_message : Option Int
  last_support_message : Option Int
  deriving DecidableEq, Repr

/-- The default state used by `check_thread_for_escalation` when no row
exists: `{'tier_1_executed': False, 'tier_2_executed': False}`. -/
def zeroState : EscalationState :=
  { tier_1_executed := false
    tier_2_executed := false
    last_non_op_message := none
    last_community_message := none
    last_support_message := none }

/-- Row of the `guild_escalation_settings` table.  Role and channel ids are
nullable columns; hours columns are integers. -/
structure EscalationSettings where
  tier_1_hours : Int
  tier_1_role_id : Option Int
  tier_2_hours : Int
  tier_2_role_id : Option Int
  escalation_channel_id : Option Int
  enabled : Bool
  escalation_behavior : String
  community_delay_hours : Int
  max_thread_age_days : Int
  deriving DecidableEq, Repr

/-- Result of one per-thread evaluation: which tier action
`check_thread_for_escalation` attempts (at most one per evaluation). -/
inductive Action where
  | doNothing
  | fireTier1
  | fireTier2
  deriving DecidableEq, Repr

/-- Decision core of `check_thread_for_escalation`
(`escalation.py`, lines 169-201): read the state row (absent row becomes
the default zero state), return early when support has replied, otherwise
check tier 2 first, then tier 1, comparing the thread age in hours against
the integer thresholds. -/
def checkThreadAction (state : Option EscalationState) (hasSupportReply : Bool)
    (threadAgeHours : ℚ) (settings : EscalationSettings) : Action :=
  let st := state.getD zeroState
  if hasSupportReply then
    Action.doNothing
  else if st.tier_2_executed = false ∧ (settings.tier_2_hours : ℚ) ≤ threadAgeHours then
    Action.fireTier2
  else if st.tier_1_executed = false ∧ (settings.tier_1_hours : ℚ) ≤ threadAgeHours then
    Action.fireTier1
  else
    Action.doNothing

/-- A state argument that is "zero": no row, or a row with both executed
flags false. -/
def zeroEscalation (state : Option EscalationState) : Prop :=
  state = none ∨
    ∃ r, state = some r ∧ r.tier_1_executed = false ∧ r.tier_2_executed = false

/-- Example settings used in concrete evaluations: tier 1 at 24 hours,
tier 2 at 48 hours, enabled. -/
def sampleSettings : EscalationSettings :=
  { tier_1_hours := 24
    tier_1_role_id := some 1001
    tier_2_hours := 48
    tier_2_role_id := some 1002
    escalation_channel_id := some 2001
    enabled := true
    escalation_behavior := "support_only"
    community_delay_hours := 12
    max_thread_age_days := 7 }

/-- C1: For every thread age `a`, settings with `tier1 < tier2`, and zero
escalation state, the evaluation with no qualifying reply returns
`fireTier2` iff `a ≥ tier2_threshold_hours`; otherwise it returns
`fireTier1` iff `a ≥ tier1_threshold_hours`; otherwise it returns no
action.  Tier 2 is checked before tier 1 and a single evaluation returns
exactly one action. -/
theorem checkThreadAction_zero_state (a : ℚ) (settings : EscalationSettings)
    (state : Option EscalationState)
    (htier : settings.tier_1_hours < settings.tier_2_hours)
    (hzero : zeroEscalation state) :
    (checkThreadAction state false a settings = Action.fireTier2 ↔
      (settings.tier_2_hours : ℚ) ≤ a) ∧
    (a < (settings.tier_2_hours : ℚ) →
      (checkThreadAction state false a settings = Action.fireTier1 ↔
        (settings.tier_1_hours : ℚ) ≤ a)) ∧
    (a < (settings.tier_1_hours : ℚ) →
      checkThreadAction state false a settings = Action.doNothing) := by
  have hst : (state.getD zeroState).tier_1_executed = false ∧
      (state.getD zeroState).tier_2_executed = false := by
    rcases hzero with h | ⟨r, hr, h1, h2⟩
    · subst h; exact ⟨rfl, rfl⟩
    · subst hr; exact ⟨h1, h2⟩
  have htierq : (settings.tier_1_hours : ℚ) < (settings.tier_2_hours : ℚ) := by
    exact_mod_cast htier
  unfold checkThreadAction
  rcases le_or_lt (settings.tier_2_hours : ℚ) a with h2 | h2
  · refine ⟨by simp [hst.1, hst.2, h2], ?_, ?_⟩
    · intro hlt; exact absurd h2 (not_le.mpr hlt)
    · intro hlt; exact absurd h2 (not_le.mpr (hlt.trans htierq))
  · have h2' : ¬ (settings.tier_2_hours : ℚ) ≤ a := not_le.mpr h2
    rcases le_or_lt (settings.tier_1_hours : ℚ) a with h1 | h1
    · refine ⟨by simp [hst.1, hst.2, h2', h1], ?_, ?_⟩
      · intro _; simp [hst.1, hst.2, h2', h1]
      · intro hlt; exact absurd h1 (not_le.mpr hlt)
    · have h1' : ¬ (settings.tier_1_hours : ℚ) ≤ a := not_le.mpr h1
      exact ⟨by simp [hst.1, hst.2, h2', h1'],
        fun _ => by simp [hst.1, hst.2, h2', h1'],
        fun _ => by simp [hst.1, hst.2, h2', h1']⟩

/-- Witness for C1 at a concrete input: age 30, the sample settings
(24 and 48 hour thresholds), absent state row. -/
theorem checkThreadAction_zero_state_witness :
    sampleSettings.tier_1_hours < sampleSettings.tier_2_hours ∧
    zeroEscalation (none : Option EscalationState) ∧
    ((checkThreadAction none false 30 sampleSettings = Action.fireTier2 ↔
        (sampleSettings.tier_2_hours : ℚ) ≤ 30) ∧
      ((30 : ℚ) < (sampleSettings.tier_2_hours : ℚ) →
        (checkThreadAction none false 30 sampleSettings = Action.fireTier1 ↔
          (sampleSettings.tier_1_hours : ℚ) ≤ 30)) ∧
      ((30 : ℚ) < (sampleSettings.tier_1_hours : ℚ) →
        checkThreadAction none false 30 sampleSettings = Action.doNothing)) :=
  ⟨by decide, Or.inl rfl,
    checkThreadAction_zero_state 30 sampleSettings none (by decide) (Or.inl rfl)⟩

/-- Embedding of `mark_escalation_tier_executed`
(`database_handler.py`, lines 323-339).  Tier 1 inserts a fresh row with
`tier_1_executed = 1, tier_2_executed = 0` (timestamps NULL) or, on
conflict, sets only `tier_1_executed = 1`; tier 2 inserts
`tier_1_executed = 0, tier_2_executed = 1` or sets only
`tier_2_executed = 1`.  Any other tier executes no statement. -/
def markEscalationTierExecuted (st : Option EscalationState) (tier : Nat) :
    Option EscalationState :=
  if tier = 1 then
    match st with
    | none => some { zeroState with tier_1_executed := true }
    | some r => some { r with tier_1_executed := true }
  else if tier = 2 then
    match st with
    | none => some { zeroState with tier_2_executed := true }
    | some r => some { r with tier_2_executed := true }
  else
    st

/-- Embedding of `reset_thread_escalation_state`
(`database_handler.py`, lines 351-355): the row is deleted outright. -/
def resetThreadEscalationState (_st : Option EscalationState) :
    Option EscalationState :=
  none

/-- C6: `markTierExecuted` is idempotent for every tier, marking tier 2
never clears an already-set tier-1 flag, and marking tier 1 on a row whose
tier-2 flag is set never clears the tier-2 flag. -/
theorem markEscalationTierExecuted_idempotent_and_preserving :
    (∀ (st : Option EscalationState) (tier : Nat),
      markEscalationTierExecuted (markEscalationTierExecuted st tier) tier =
        markEscalationTierExecuted st tier) ∧
    (∀ r : EscalationState, r.tier_1_executed = true →
      ∃ r', markEscalationTierExecuted (some r) 2 = some r' ∧
        r'.tier_1_executed = true) ∧
    (∀ r : EscalationState, r.tier_2_executed = true →
      ∃ r', markEscalationTierExecuted (some r) 1 = some r' ∧
        r'.tier_2_executed = true) := by
  refine ⟨?_, ?_, ?_⟩
  · intro st tier
    unfold markEscalationTierExecuted
    by_cases h1 : tier = 1
    · cases st <;> simp [h1]
    · by_cases h2 : tier = 2
      · cases st <;> simp [h1, h2]
      · simp [h1, h2]
  · intro r h
    exact ⟨{ r with tier_2_executed := true }, by simp [markEscalationTierExecuted], h⟩
  · intro r h
    exact ⟨{ r with tier_1_executed := true }, by simp [markEscalationTierExecuted], h⟩

/-- Witness for C6 at concrete inputs: double-mark of tier 1 on an absent
row, tier 2 marked on a row with tier 1 set, tier 1 marked on a row with
tier 2 set. -/
theorem markEscalationTierExecuted_idempotent_and_preserving_witness :
    (markEscalationTierExecuted (markEscalationTierExecuted none 1) 1 =
      markEscalationTierExecuted none 1) ∧
    (∃ r', markEscalationTierExecuted
        (some { zeroState with tier_1_executed := true }) 2 = some r' ∧
      r'.tier_1_executed = true) ∧
    (∃ r', markEscalationTierExecuted
        (some { zeroState with tier_2_executed := true }) 1 = some r' ∧
      r'.tier_2_executed = true) :=
  ⟨markEscalationTierExecuted_idempotent_and_preserving.1 none 1,
    markEscalationTierExecuted_idempotent_and_preserving.2.1
      { zeroState with tier_1_executed := true } rfl,
    markEscalationTierExecuted_idempotent_and_preserving.2.2
      { zeroState with tier_2_executed := true } rfl⟩

/-- Store operations that mutate a single thread's escalation row. -/
inductive StoreOp where
  | markTier1
  | markTier2
  | resetRow
  deriving DecidableEq, Repr

/-- Apply one store operation to a thread's (possibly absent) row. -/
def applyStoreOp (st : Option EscalationState) : StoreOp → Option EscalationState
  | StoreOp.markTier1 => markEscalationTierExecuted st 1
  | StoreOp.markTier2 => markEscalationTierExecuted st 2
  | StoreOp.resetRow => resetThreadEscalationState st

/-- Run a sequence of store operations starting from the absent row. -/
def runStoreOps (ops : List StoreOp) : Option EscalationState :=
  ops.foldl applyStoreOp none

/-- Every present row keeps at least one executed flag set under any store
operation. -/
theorem applyStoreOp_flag (st : Option EscalationState)
    (h : ∀ r, st = some r → r.tier_1_executed = true ∨ r.tier_2_executed = true)
    (op : StoreOp) :
    ∀ r, applyStoreOp st op = some r →
      r.tier_1_executed = true ∨ r.tier_2_executed = true := by
  intro r hr
  cases op with
  | markTier1 =>
    cases st with
    | none =>
      simp [applyStoreOp, markEscalationTierExecuted] at hr
      exact Or.inl (by simp [← hr])
    | some r0 =>
      simp [applyStoreOp, markEscalationTierExecuted] at hr
      exact Or.inl (by simp [← hr])
  | markTier2 =>
    cases st with
    | none =>
      simp [applyStoreOp, markEscalationTierExecuted] at hr
      exact Or.inr (by simp [← hr])
    | some r0 =>
      simp [applyStoreOp, markEscalationTierExecuted] at hr
      exact Or.inr (by simp [← hr])
  | resetRow =>
    simp [applyStoreOp, resetThreadEscalationState] at hr

/-- Folding store operations preserves the at-least-one-flag property. -/
theorem foldl_applyStoreOp_flag (ops : List StoreOp) :
    ∀ st : Option EscalationState,
      (∀ r, st = some r → r.tier_1_executed = true ∨ r.tier_2_executed = true) →
      ∀ r, ops.foldl applyStoreOp st = some r →
        r.tier_1_executed = true ∨ r.tier_2_executed = true := by
  induction ops with
  | nil => intro st h r hr; exact h r hr
  | cons op rest ih =>
    intro st h r hr
    exact ih (applyStoreOp st op) (applyStoreOp_flag st h op) r hr

/-- C3 counterexample: calling `markTierExecuted(t, 2)` on an absent row —
exactly what the scheduler does when an old thread fires tier 2 first —
creates a reachable row with `tier_2_executed = true` and
`tier_1_executed = false`, violating the claimed invariant. -/
theorem tier2_without_tier1_reachable :
    runStoreOps [StoreOp.markTier2] =
      some { zeroState with tier_2_executed := true } ∧
    ({ zeroState with tier_2_executed := true } : EscalationState).tier_2_executed
      = true ∧
    ({ zeroState with tier_2_executed := true } : EscalationState).tier_1_executed
      = false :=
  ⟨rfl, rfl, rfl⟩

/-- C3 amended: in every reachable row produced by the store operations
(markTierExecuted for tiers 1 and 2, resetState, absent row meaning zero
state), at least one executed flag is set; the claimed implication from
`tier2_executed` to `tier1_executed` does not hold, because marking tier 2
on an absent row creates a row with `tier_1_executed = false`. -/
theorem runStoreOps_flag_invariant (ops : List StoreOp) (r : EscalationState)
    (h : runStoreOps ops = some r) :
    r.tier_1_executed = true ∨ r.tier_2_executed = true :=
  foldl_applyStoreOp_flag ops none (by intro r0 h0; cases h0) r h

/-- Witness for the amended C3 at a concrete operation sequence. -/
theorem runStoreOps_flag_invariant_witness :
    runStoreOps [StoreOp.markTier1] =
      some { zeroState with tier_1_executed := true } ∧
    (({ zeroState with tier_1_executed := true } : EscalationState).tier_1_executed
        = true ∨
      ({ zeroState with tier_1_executed := true } : EscalationState).tier_2_executed
        = true) :=
  ⟨rfl, runStoreOps_flag_invariant [StoreOp.markTier1]
    { zeroState with tier_1_executed := true } rfl⟩

/-- C2 counterexample: the state with `tier_2_executed = true` and
`tier_1_executed = false` is reachable without any reset (tier 2 marked on
an absent row), yet a further evaluation of the thread at age 100 hours
under the sample settings returns `fireTier1`. -/
theorem tier2_executed_still_fires_tier1 :
    runStoreOps [StoreOp.markTier2] =
      some { zeroState with tier_2_executed := true } ∧
    ({ zeroState with tier_2_executed := true } : EscalationState).tier_2_executed
      = true ∧
    checkThreadAction (some { zeroState with tier_2_executed := true }) false 100
      sampleSettings = Action.fireTier1 :=
  ⟨rfl, rfl, by decide⟩

/-- C2 amended: once `tier_2_executed` is true, no further evaluation of
the unreset state at any age, under any settings, returns `fireTier2`; if
`tier_1_executed` is also true, every further evaluation returns no
action.  (With `tier_2_executed` true but `tier_1_executed` false — the
state created when tier 2 fires first — a further evaluation can still
return `fireTier1`.) -/
theorem checkThreadAction_after_tier2 (r : EscalationState) (hasReply : Bool)
    (a : ℚ) (settings : EscalationSettings) (h2 : r.tier_2_executed = true) :
    checkThreadAction (some r) hasReply a settings ≠ Action.fireTier2 ∧
    (r.tier_1_executed = true →
      checkThreadAction (some r) hasReply a settings = Action.doNothing) := by
  constructor
  · unfold checkThreadAction
    cases hasReply
    · by_cases h1c : r.tier_1_executed = false ∧ (settings.tier_1_hours : ℚ) ≤ a
      · simp [h2, h1c]
      · simp [h2, h1c]
    · simp
  · intro h1
    unfold checkThreadAction
    cases hasReply <;> simp [h1, h2]

/-- Witness for the amended C2 at a concrete state with both flags set,
age 1000 hours, the sample settings. -/
theorem checkThreadAction_after_tier2_witness :
    checkThreadAction
        (some { zeroState with tier_1_executed := true, tier_2_executed := true })
        false 1000 sampleSettings ≠ Action.fireTier2 ∧
    (({ zeroState with tier_1_executed := true, tier_2_executed := true } :
        EscalationState).tier_1_executed = true →
      checkThreadAction
        (some { zeroState with tier_1_executed := true, tier_2_executed := true })
        false 1000 sampleSettings = Action.doNothing) :=
  checkThreadAction_after_tier2
    { zeroState with tier_1_executed := true, tier_2_executed := true }
    false 1000 sampleSettings rfl

/-- One message of a thread's history, as `has_support_ever_replied` reads
it: author id, the author's bot flag, and the author's role ids when the
author object carries a `roles` attribute (guild members do, plain users
do not). -/
structure HistoryMessage where
  authorId : Int
  authorIsBot : Bool
  authorRoles : Option (List Int)
  deriving DecidableEq, Repr

/-- Per-message test of `has_support_ever_replied`: skip the thread owner
and automated authors, then check whether the author's role-id set
intersects the configured support-role set (authors without a `roles`
attribute never qualify). -/
def qualifiesAsSupport (supportRoleIds : List Int) (ownerId : Int)
    (m : HistoryMessage) : Bool :=
  if m.authorId = ownerId ∨ m.authorIsBot = true then
    false
  else
    match m.authorRoles with
    | none => false
    | some rs => decide (∃ rid ∈ rs, rid ∈ supportRoleIds)

/-- Embedding of `has_support_ever_replied`
(`escalation.py`, lines 203-234): with no configured support roles the
answer is `false`; otherwise the whole history is scanned (no limit) for a
qualifying message. -/
def hasSupportEverReplied (history : List HistoryMessage) (ownerId : Int)
    (supportRoleIds : List Int) : Bool :=
  if supportRoleIds = [] then
    false
  else
    history.any (qualifiesAsSupport supportRoleIds ownerId)

/-- History-read failures (`Forbidden`, `NotFound`, any other exception)
are caught inside `has_support_ever_replied` and classified as "no
qualifying reply found". -/
def hasSupportEverRepliedResult (historyResult : Except Unit (List HistoryMessage))
    (ownerId : Int) (supportRoleIds : List Int) : Bool :=
  match historyResult with
  | Except.error _ => false
  | Except.ok history => hasSupportEverReplied history ownerId supportRoleIds

/-- C5: with a non-empty configured support-role set, the classifier
reports a qualifying reply iff some message of the full history has an
author who is not the thread owner, is not automated, and whose role-id
set intersects the support-role set — messages carry no timestamp in the
scan, so recency is irrelevant; with an empty support-role set it reports
no qualifying reply. -/
theorem hasSupportEverReplied_iff (history : List HistoryMessage)
    (ownerId : Int) (supportRoleIds : List Int) :
    (supportRoleIds ≠ [] →
      (hasSupportEverReplied history ownerId supportRoleIds = true ↔
        ∃ m ∈ history, m.authorId ≠ ownerId ∧ m.authorIsBot = false ∧
          ∃ rs, m.authorRoles = some rs ∧ ∃ rid ∈ rs, rid ∈ supportRoleIds)) ∧
    hasSupportEverReplied history ownerId [] = false := by
  constructor
  · intro hne
    rw [hasSupportEverReplied, if_neg hne, List.any_eq_true]
    constructor
    · rintro ⟨m, hm, hq⟩
      refine ⟨m, hm, ?_⟩
      unfold qualifiesAsSupport at hq
      by_cases hskip : m.authorId = ownerId ∨ m.authorIsBot = true
      · rw [if_pos hskip] at hq; cases hq
      · rw [if_neg hskip] at hq
        push_neg at hskip
        obtain ⟨hid, hbot⟩ := hskip
        rcases hrs : m.authorRoles with _ | rs
        · rw [hrs] at hq; cases hq
        · rw [hrs] at hq
          exact ⟨hid, Bool.not_eq_true _ ▸ hbot, rs, rfl, of_decide_eq_true hq⟩
    · rintro ⟨m, hm, hid, hbot, rs, hrs, hint⟩
      refine ⟨m, hm, ?_⟩
      unfold qualifiesAsSupport
      rw [if_neg (by simp [hid, hbot]), hrs]
      exact decide_eq_true hint
  · rw [hasSupportEverReplied, if_pos rfl]

/-- Witness for C5: a two-message history in which the second message is
from a non-owner, non-bot member holding configured support role 7. -/
theorem hasSupportEverReplied_iff_witness :
    ((hasSupportEverReplied
        [{ authorId := 5, authorIsBot := false, authorRoles := some [] },
          { authorId := 9, authorIsBot := false, authorRoles := some [7, 8] }]
        5 [7] = true ↔
      ∃ m ∈ [({ authorId := 5, authorIsBot := false, authorRoles := some [] } :
            HistoryMessage),
          { authorId := 9, authorIsBot := false, authorRoles := some [7, 8] }],
        m.authorId ≠ 5 ∧ m.authorIsBot = false ∧
          ∃ rs, m.authorRoles = some rs ∧ ∃ rid ∈ rs, rid ∈ [(7 : Int)]) ∧
      hasSupportEverReplied
        [{ authorId := 5, authorIsBot := false, authorRoles := some [] },
          { authorId := 9, authorIsBot := false, authorRoles := some [7, 8] }]
        5 [] = false) ∧
    hasSupportEverReplied
      [{ authorId := 5, authorIsBot := false, authorRoles := some [] },
        { authorId := 9, authorIsBot := false, authorRoles := some [7, 8] }]
      5 [7] = true :=
  ⟨⟨(hasSupportEverReplied_iff
      [{ authorId := 5, authorIsBot := false, authorRoles := some [] },
        { authorId := 9, authorIsBot := false, authorRoles := some [7, 8] }]
      5 [7]).1 (by decide),
    (hasSupportEverReplied_iff
      [{ authorId := 5, authorIsBot := false, authorRoles := some [] },
        { authorId := 9, authorIsBot := false, authorRoles := some [7, 8] }]
      5 []).2⟩,
    by decide⟩

/-- Failure raised by a message send: the source distinguishes `Forbidden`
from any other exception, but both are caught and both skip the flag
write. -/
inductive SendFailure where
  | forbidden
  | otherError
  deriving DecidableEq, Repr

/-- Embedding of `execute_tier_1_escalation`
(`escalation.py`, lines 48-84).  `roleLookup` is the result of
`guild.get_role(settings['tier_1_role_id'])`; `sendResult` is the outcome
of `thread.send(...)`.  Only after a successful send is
`mark_escalation_tier_executed(thread.id, 1)` called; every failure path
returns `False` with the store untouched. -/
def executeTier1Escalation (roleLookup : Option Int)
    (sendResult : Except SendFailure Unit) (st : Option EscalationState) :
    Bool × Option EscalationState :=
  match roleLookup with
  | none => (false, st)
  | some _ =>
    match sendResult with
    | Except.error _ => (false, st)
    | Except.ok _ => (true, markEscalationTierExecuted st 1)

/-- Embedding of `execute_tier_2_escalation`
(`escalation.py`, lines 86-131): the tier-2 role and the escalation
channel must both resolve, then the alert is sent into the escalation
channel, and only on success is tier 2 marked executed. -/
def executeTier2Escalation (roleLookup : Option Int) (channelLookup : Option Int)
    (sendResult : Except SendFailure Unit) (st : Option EscalationState) :
    Bool × Option EscalationState :=
  match roleLookup with
  | none => (false, st)
  | some _ =>
    match channelLookup with
    | none => (false, st)
    | some _ =>
      match sendResult with
      | Except.error _ => (false, st)
      | Except.ok _ => (true, markEscalationTierExecuted st 2)

/-- C4: for both tier executions, the tier-executed flag is written only
after the alert send succeeds.  If the role (or, for tier 2, the channel)
cannot be resolved, or the send fails with `Forbidden` or any other error,
`markTierExecuted` is not called and the state is returned unchanged, so
the next tick retries the same tier; conversely the state can only change
when the send succeeded, and then it changes exactly by marking the tier. -/
theorem executeTier_marks_flag_only_after_send (roleLookup channelLookup : Option Int)
    (sendResult : Except SendFailure Unit) (st : Option EscalationState) :
    ((roleLookup = none ∨ ∃ e, sendResult = Except.error e) →
      executeTier1Escalation roleLookup sendResult st = (false, st)) ∧
    ((roleLookup = none ∨ channelLookup = none ∨ ∃ e, sendResult = Except.error e) →
      executeTier2Escalation roleLookup channelLookup sendResult st = (false, st)) ∧
    ((executeTier1Escalation roleLookup sendResult st).2 ≠ st →
      sendResult = Except.ok () ∧
      (executeTier1Escalation roleLookup sendResult st).2 =
        markEscalationTierExecuted st 1) ∧
    ((executeTier2Escalation roleLookup channelLookup sendResult st).2 ≠ st →
      sendResult = Except.ok () ∧
      (executeTier2Escalation roleLookup channelLookup sendResult st).2 =
        markEscalationTierExecuted st 2) := by
  refine ⟨?_, ?_, ?_, ?_⟩
  · rintro (hrole | ⟨e, hsend⟩)
    · simp [executeTier1Escalation, hrole]
    · cases roleLookup <;> simp [executeTier1Escalation, hsend]
  · rintro (hrole | hchan | ⟨e, hsend⟩)
    · simp [executeTier2Escalation, hrole]
    · cases roleLookup <;> simp [executeTier2Escalation, hchan]
    · cases roleLookup <;> cases channelLookup <;>
        simp [executeTier2Escalation, hsend]
  · intro hchange
    cases roleLookup with
    | none => exact absurd rfl hchange
    | some r =>
      cases sendResult with
      | error e => exact absurd rfl hchange
      | ok u => exact ⟨rfl, rfl⟩
  · intro hchange
    cases roleLookup with
    | none => exact absurd rfl hchange
    | some r =>
      cases channelLookup with
      | none => exact absurd rfl hchange
      | some ch =>
        cases sendResult with
        | error e => exact absurd rfl hchange
        | ok u => exact ⟨rfl, rfl⟩

/-- Witness for C4 at concrete failures: tier 1 with a deleted role, and
tier 2 with a send rejected by `Forbidden`, both on an absent state row. -/
theorem executeTier_marks_flag_only_after_send_witness :
    executeTier1Escalation none (Except.ok ()) none = (false, none) ∧
    executeTier2Escalation (some 1002) (some 2001)
      (Except.error SendFailure.forbidden) none = (false, none) :=
  ⟨(executeTier_marks_flag_only_after_send none (some 2001) (Except.ok ()) none).1
      (Or.inl rfl),
    (executeTier_marks_flag_only_after_send (some 1002) (some 2001)
        (Except.error SendFailure.forbidden) none).2.1
      (Or.inr (Or.inr ⟨SendFailure.forbidden, rfl⟩))⟩

/-- Result of `get_guild_config` (`database_handler.py`, lines 156-179):
the DM flag plus the guild's monitored-channel and support-role id
lists. -/
structure GuildConfig where
  dm_notifications_enabled : Bool
  monitored_channels : List Int
  support_roles : List Int
  deriving DecidableEq, Repr

/-- The data `on_message` reads from an inbound message: whether the
channel is a thread, the thread's parent channel, the thread owner, and
the author's id, bot flag, and role ids (absent when the author object has
no `roles` attribute). -/
structure MessageEvent where
  channelIsThread : Bool
  threadParentId : Option Int
  threadOwnerId : Int
  authorId : Int
  authorIsBot : Bool
  authorRoles : Option (List Int)
  deriving DecidableEq, Repr

/-- Embedding of `is_monitored_thread` (`escalation.py`, lines 21-30):
the channel must be a thread with a parent, the guild config must exist
with a non-empty monitored-channel list, and the parent must be in that
list. -/
def isMonitoredThread (config : Option GuildConfig) (ev : MessageEvent) : Bool :=
  match ev.channelIsThread, ev.threadParentId with
  | false, _ => false
  | true, none => false
  | true, some p =>
    match config with
    | none => false
    | some c =>
      if c.monitored_channels = [] then false
      else decide (p ∈ c.monitored_channels)

/-- Embedding of the `on_message` listener (`escalation.py`, lines
236-266), as its effect on the posted-in thread's escalation row: skip
non-threads, unmonitored threads, the owner, and bots; then, when the
author's roles intersect the configured support roles, delete the row via
`reset_thread_escalation_state`.  The listener reads only the guild
config, never the guild's escalation settings. -/
def onMessage (config : Option GuildConfig) (ev : MessageEvent)
    (st : Option EscalationState) : Option EscalationState :=
  if ev.channelIsThread = false then st
  else if isMonitoredThread config ev = false then st
  else if ev.authorId = ev.threadOwnerId ∨ ev.authorIsBot = true then st
  else
    match config with
    | none => st
    | some c =>
      match ev.authorRoles with
      | none => st
      | some rs =>
        if ∃ rid ∈ rs, rid ∈ c.support_roles then
          resetThreadEscalationState st
        else st

/-- Core of the listener: a qualifying support reply in a monitored
thread deletes the escalation row. -/
theorem onMessage_reset_core (c : GuildConfig) (ev : MessageEvent)
    (st : Option EscalationState) (rs : List Int)
    (hmon : isMonitoredThread (some c) ev = true)
    (howner : ev.authorId ≠ ev.threadOwnerId)
    (hbot : ev.authorIsBot = false)
    (hroles : ev.authorRoles = some rs)
    (hsupport : ∃ rid ∈ rs, rid ∈ c.support_roles) :
    onMessage (some c) ev st = none := by
  have hthread : ev.channelIsThread = true := by
    by_contra h
    rw [isMonitoredThread] at hmon
    rcases hb : ev.channelIsThread with _ | _
    · rw [hb] at hmon; cases hmon
    · exact h hb
  unfold onMessage
  rw [if_neg (by simp [hthread]), if_neg (by simp [hmon]),
    if_neg (by simp [howner, hbot]), hroles]
  show (if ∃ rid ∈ rs, rid ∈ c.support_roles then resetThreadEscalationState st
    else st) = none
  rw [if_pos hsupport]
  rfl

/-- C7: for every inbound message in a monitored thread whose author is
not the thread owner, is not automated, and holds a configured support
role, the listener deletes the thread's escalation row entirely, so the
row is afterwards absent and the next evaluation starts from zero state at
any age. -/
theorem onMessage_support_reply_resets (c : GuildConfig) (ev : MessageEvent)
    (st : Option EscalationState) (rs : List Int)
    (hmon : isMonitoredThread (some c) ev = true)
    (howner : ev.authorId ≠ ev.threadOwnerId)
    (hbot : ev.authorIsBot = false)
    (hroles : ev.authorRoles = some rs)
    (hsupport : ∃ rid ∈ rs, rid ∈ c.support_roles) :
    onMessage (some c) ev st = none ∧
    zeroEscalation (onMessage (some c) ev st) := by
  have h := onMessage_reset_core c ev st rs hmon howner hbot hroles hsupport
  exact ⟨h, Or.inl h⟩

/-- Concrete guild config used in witnesses: monitored forum 100, support
role 7. -/
def sampleConfig : GuildConfig :=
  { dm_notifications_enabled := true
    monitored_channels := [100]
    support_roles := [7] }

/-- Concrete message event used in witnesses: support member 9 (roles 7
and 8, not a bot) posts in a thread of forum 100 owned by user 5. -/
def sampleEvent : MessageEvent :=
  { channelIsThread := true
    threadParentId := some 100
    threadOwnerId := 5
    authorId := 9
    authorIsBot := false
    authorRoles := some [7, 8] }

/-- Concrete escalation row with the tier-1 flag already set. -/
def sampleTier1Row : EscalationState :=
  { zeroState with tier_1_executed := true }

/-- Witness for C7: a support member (id 9, role 7) posts in monitored
thread (parent 100), owner 5, with a row whose tier-1 flag is set. -/
theorem onMessage_support_reply_resets_witness :
    onMessage (some sampleConfig) sampleEvent (some sampleTier1Row) = none ∧
    zeroEscalation (onMessage (some sampleConfig) sampleEvent
      (some sampleTier1Row)) :=
  onMessage_support_reply_resets sampleConfig sampleEvent (some sampleTier1Row)
    [7, 8] (by decide) (by decide) rfl rfl (by decide)

/-- Per-guild persisted data: the guild config and the guild's escalation
settings are separate rows; the listener reads only the former. -/
structure GuildData where
  config : Option GuildConfig
  escalationSettings : Option EscalationSettings
  deriving DecidableEq, Repr

/-- The listener run against the full guild data: `on_message` calls
`get_guild_config` (twice) and never `get_guild_escalation_settings`. -/
def onMessageInGuild (g : GuildData) (ev : MessageEvent)
    (st : Option EscalationState) : Option EscalationState :=
  onMessage g.config ev st

/-- C10: the listener's effect is independent of the guild's escalation
settings — replacing them by anything (absent, or disabled) changes
nothing — and even with escalation settings absent, a qualifying support
reply in a monitored thread still deletes the state row; the only guild
data consulted is the config's monitored-channel and support-role sets. -/
theorem onMessageInGuild_settings_independent (g : GuildData)
    (settings : Option EscalationSettings) (ev : MessageEvent)
    (st : Option EscalationState) :
    (onMessageInGuild { g with escalationSettings := settings } ev st =
      onMessageInGuild g ev st) ∧
    (∀ c rs, g.config = some c →
      isMonitoredThread (some c) ev = true →
      ev.authorId ≠ ev.threadOwnerId →
      ev.authorIsBot = false →
      ev.authorRoles = some rs →
      (∃ rid ∈ rs, rid ∈ c.support_roles) →
      onMessageInGuild { config := g.config, escalationSettings := none } ev st
        = none) := by
  constructor
  · rfl
  · intro c rs hc hmon howner hbot hroles hsupport
    show onMessage g.config ev st = none
    rw [hc]
    exact onMessage_reset_core c ev st rs hmon howner hbot hroles hsupport

/-- Witness for C10 at the concrete qualifying scenario of C7, with the
guild's escalation settings absent. -/
theorem onMessageInGuild_settings_independent_witness :
    onMessageInGuild { config := some sampleConfig, escalationSettings := none }
      sampleEvent (some sampleTier1Row) = none :=
  (onMessageInGuild_settings_independent
    { config := some sampleConfig, escalationSettings := none }
    (some sampleSettings) sampleEvent (some sampleTier1Row)).2
    sampleConfig [7, 8] rfl (by decide) (by decide) rfl rfl (by decide)

/-- The two escalation tables the bulk reset touches:
`guild_escalation_settings` keyed by guild id and
`thread_escalation_state` keyed by thread id.  The state table carries no
guild column. -/
structure EscalationDb where
  escalationSettings : List (Int × EscalationSettings)
  threadStates : List (Int × EscalationState)
  deriving DecidableEq, Repr

/-- The `EXISTS (SELECT 1 FROM guild_escalation_settings ges WHERE
ges.guild_id = ? AND ges.enabled = 1)` subquery both statements of
`reset_all_escalation_states` use: it tests only the argument guild and
mentions no thread. -/
def guildEscalationEnabled (db : EscalationDb) (guildId : Int) : Bool :=
  db.escalationSettings.any fun p => p.1 = guildId ∧ p.2.enabled = true

/-- Embedding of `reset_all_escalation_states`
(`database_handler.py`, lines 357-382): count all rows of
`thread_escalation_state` when the argument guild has escalation enabled
(the subquery is uncorrelated, so it gates all rows at once), delete the
same set of rows, and return the count. -/
def resetAllEscalationStates (db : EscalationDb) (guildId : Int) :
    Nat × EscalationDb :=
  if guildEscalationEnabled db guildId then
    (db.threadStates.length, { db with threadStates := [] })
  else
    (0, db)

/-- Concrete store for the C8 scenario: guild 1 has escalation enabled,
guild 2 has no settings row, and the single state row is for thread 10. -/
def sampleDb : EscalationDb :=
  { escalationSettings := [(1, sampleSettings)]
    threadStates := [(10, sampleTier1Row)] }

/-- C8 counterexample: in `sampleDb`, thread 10 belongs to guild 2, which
has no escalation settings and hence is not escalation-enabled; yet
`resetAllStates(1)` deletes thread 10's row (and reports it in the count),
because the delete is gated only on the calling guild's enabled flag and
removes every row of the table.  The claimed "deletes exactly the rows
belonging to threads under guilds with escalation enabled" is false. -/
theorem resetAll_deletes_row_of_disabled_guild :
    guildEscalationEnabled sampleDb 2 = false ∧
    (resetAllEscalationStates sampleDb 1).2.threadStates = [] ∧
    (resetAllEscalationStates sampleDb 1).1 = 1 := by
  refine ⟨?_, ?_, ?_⟩ <;> decide

/-- C8 amended: when the calling guild has escalation enabled,
`resetAllStates` deletes every row of `thread_escalation_state` regardless
of which guild each thread belongs to and returns the count of all rows;
when it does not, nothing is deleted and 0 is returned.  In both cases the
returned count equals the number of rows deleted, and an immediately
repeated call returns 0. -/
theorem resetAllEscalationStates_spec (db : EscalationDb) (guildId : Int) :
    (resetAllEscalationStates db guildId).1 =
      db.threadStates.length -
        (resetAllEscalationStates db guildId).2.threadStates.length ∧
    (guildEscalationEnabled db guildId = true →
      (resetAllEscalationStates db guildId).2.threadStates = [] ∧
      (resetAllEscalationStates db guildId).1 = db.threadStates.length) ∧
    (guildEscalationEnabled db guildId = false →
      (resetAllEscalationStates db guildId).2 = db ∧
      (resetAllEscalationStates db guildId).1 = 0) ∧
    (resetAllEscalationStates (resetAllEscalationStates db guildId).2 guildId).1
      = 0 := by
  by_cases h : guildEscalationEnabled db guildId
  · refine ⟨by simp [resetAllEscalationStates, h], fun _ => ?_, fun hf => ?_, ?_⟩
    · exact ⟨by simp [resetAllEscalationStates, h],
        by simp [resetAllEscalationStates, h]⟩
    · rw [h] at hf; cases hf
    · have henabled :
          guildEscalationEnabled { db with threadStates := [] } guildId =
            guildEscalationEnabled db guildId := rfl
      simp [resetAllEscalationStates, h, henabled]
  · have hf : guildEscalationEnabled db guildId = false := by
      cases hb : guildEscalationEnabled db guildId
      · rfl
      · exact absurd hb h
    refine ⟨by simp [resetAllEscalationStates, hf], fun ht => ?_, fun _ => ?_, ?_⟩
    · rw [hf] at ht; cases ht
    · exact ⟨by simp [resetAllEscalationStates, hf],
        by simp [resetAllEscalationStates, hf]⟩
    · simp [resetAllEscalationStates, hf]

/-- Witness for the amended C8 at `sampleDb` with calling guild 1, which
is escalation-enabled: everything is deleted and the count is the full
table size. -/
theorem resetAllEscalationStates_spec_witness :
    (resetAllEscalationStates sampleDb 1).2.threadStates = [] ∧
    (resetAllEscalationStates sampleDb 1).1 = sampleDb.threadStates.length :=
  (resetAllEscalationStates_spec sampleDb 1).2.1 (by decide)

/-- One active-thread snapshot seen by the sweep: id, the archived and
locked flags, and whether the body of `check_thread_for_escalation` would
raise on it this tick. -/
structure ThreadSnapshot where
  threadId : Int
  archived : Bool
  locked : Bool
  processFails : Bool
  deriving DecidableEq, Repr

/-- A resolved forum channel with its active threads. -/
structure ForumSnapshot where
  threads : List ThreadSnapshot
  deriving DecidableEq, Repr

/-- One guild as `check_stale_threads` sees it: the outcome of the two
store fetches (either may raise), and the channel map backing
`guild.get_channel` — `none` when the id resolves to nothing or to a
non-forum channel. -/
structure GuildSnapshot where
  settingsFetch : Except Unit (Option EscalationSettings)
  configFetch : Except Unit (Option GuildConfig)
  channels : List (Int × Option ForumSnapshot)
  deriving Repr

/-- `guild.get_channel(forum_id)` over the snapshot's channel map; the
lookup itself never raises. -/
def lookupChannel : List (Int × Option ForumSnapshot) → Int → Option ForumSnapshot
  | [], _ => none
  | (fid, o) :: rest, k => if k = fid then o else lookupChannel rest k

/-- The body of `check_thread_for_escalation` for one thread, which may
raise. -/
def checkThreadBody (t : ThreadSnapshot) : Except Unit Int :=
  if t.processFails = true then Except.error () else Except.ok t.threadId

/-- `check_thread_for_escalation` as the scheduler calls it: the whole
body sits in a `try`, and the `except` clause logs and swallows, so the
call always returns and the thread counts as visited. -/
def visitThread (t : ThreadSnapshot) : Int :=
  match checkThreadBody t with
  | Except.ok tid => tid
  | Except.error _ => t.threadId

/-- Threads of one forum actually handed to
`check_thread_for_escalation`: archived and locked threads are skipped. -/
def forumVisits (forum : ForumSnapshot) : List Int :=
  (forum.threads.filter fun t => !t.archived && !t.locked).map visitThread

/-- The forum loop of `check_stale_threads`: every monitored channel id
is resolved (ids that resolve to nothing or to a non-forum are skipped),
and each resolved forum's eligible threads are visited. -/
def sweepForums (channels : List (Int × Option ForumSnapshot))
    (monitored : List Int) : List Int :=
  (monitored.map fun fid =>
    match lookupChannel channels fid with
    | none => []
    | some forum => forumVisits forum).flatten

/-- The config step of the guild sweep: a raised config fetch escapes; an
absent config or an empty monitored-channel list skips the guild. -/
def sweepWithConfig (channels : List (Int × Option ForumSnapshot)) :
    Except Unit (Option GuildConfig) → Except Unit (List Int)
  | Except.error e => Except.error e
  | Except.ok none => Except.ok []
  | Except.ok (some c) =>
    if c.monitored_channels = [] then Except.ok []
    else Except.ok (sweepForums channels c.monitored_channels)

/-- The settings step of the guild sweep: a raised settings fetch
escapes; absent or disabled settings skip the guild. -/
def sweepWithSettings (cf : Except Unit (Option GuildConfig))
    (channels : List (Int × Option ForumSnapshot)) :
    Except Unit (Option EscalationSettings) → Except Unit (List Int)
  | Except.error e => Except.error e
  | Except.ok none => Except.ok []
  | Except.ok (some s) =>
    if s.enabled = false then Except.ok []
    else sweepWithConfig channels cf

/-- The per-guild part of `check_stale_threads` (`escalation.py`, lines
140-164): fetch the escalation settings (may raise), skip when absent or
disabled, fetch the guild config (may raise), skip when absent or with no
monitored channels, then walk every monitored forum and every eligible
thread.  An error escapes to the caller. -/
def sweepGuild (g : GuildSnapshot) : Except Unit (List Int) :=
  sweepWithSettings g.configFetch g.channels g.settingsFetch

/-- The guild loop of `check_stale_threads`: the first guild-level error
aborts the remaining guilds (the single `try` wraps the whole loop); the
Bool records whether an exception reached the outer handler. -/
def sweepAll : List GuildSnapshot → List Int × Bool
  | [] => ([], false)
  | g :: rest =>
    match sweepGuild g with
    | Except.error _ => ([], true)
    | Except.ok vs => (vs ++ (sweepAll rest).1, (sweepAll rest).2)

/-- `check_stale_threads` (`escalation.py`, lines 133-167): the outer
`except` logs the exception, so the periodic task always returns the
threads visited before any abort and never propagates an error. -/
def checkStaleThreads (guilds : List GuildSnapshot) : List Int :=
  (sweepAll guilds).1

/-- A guild whose escalation-settings fetch raises this tick. -/
def failingGuild : GuildSnapshot :=
  { settingsFetch := Except.error ()
    configFetch := Except.ok none
    channels := [] }

/-- A healthy guild: escalation enabled, forum 100 monitored, one active
thread 42 whose per-thread processing fails. -/
def healthyGuild : GuildSnapshot :=
  { settingsFetch := Except.ok (some sampleSettings)
    configFetch := Except.ok (some sampleConfig)
    channels := [(100, some { threads :=
      [{ threadId := 42, archived := false, locked := false,
         processFails := true }] })] }

/-- C9 counterexample: with a guild whose settings fetch raises placed
before a healthy guild, the healthy guild's thread 42 is not visited that
tick (the sweep returns no visits), although it is visited when the
failing guild is absent; so an exception in one guild does abort the rest
of the sweep. -/
theorem guild_fetch_failure_aborts_sweep :
    checkStaleThreads [failingGuild, healthyGuild] = [] ∧
    checkStaleThreads [healthyGuild] = [42] := by
  constructor <;> rfl

/-- `check_thread_for_escalation` always reports the thread as visited,
whether or not its body raises. -/
theorem visitThread_eq (t : ThreadSnapshot) : visitThread t = t.threadId := by
  unfold visitThread checkThreadBody
  by_cases h : t.processFails = true <;> simp [h]

/-- Overwriting the per-thread failure flags of a snapshot. -/
def setThreadOutcome (b : Bool) (t : ThreadSnapshot) : ThreadSnapshot :=
  { t with processFails := b }

/-- Overwriting every thread's failure flag in a forum. -/
def setForumOutcomes (b : Bool) (f : ForumSnapshot) : ForumSnapshot :=
  { f with threads := f.threads.map (setThreadOutcome b) }

/-- Overwriting every thread's failure flag in a guild snapshot. -/
def setGuildOutcomes (b : Bool) (g : GuildSnapshot) : GuildSnapshot :=
  { g with channels := g.channels.map fun p => (p.1, p.2.map (setForumOutcomes b)) }

/-- Visits of a thread list do not depend on the per-thread failure
flags. -/
theorem threadVisits_setThreadOutcome (b : Bool) (ts : List ThreadSnapshot) :
    ((ts.map (setThreadOutcome b)).filter fun t =>
      !t.archived && !t.locked).map visitThread =
    (ts.filter fun t => !t.archived && !t.locked).map visitThread := by
  induction ts with
  | nil => rfl
  | cons t ts ih =>
    rw [List.map_cons, List.filter_cons, List.filter_cons]
    have hset : (!(setThreadOutcome b t).archived &&
        !(setThreadOutcome b t).locked) = (!t.archived && !t.locked) := rfl
    rw [hset]
    by_cases h : (!t.archived && !t.locked) = true
    · rw [if_pos h, if_pos h, List.map_cons, List.map_cons, ih,
        visitThread_eq, visitThread_eq]
      rfl
    · rw [if_neg h, if_neg h]
      exact ih

/-- Forum visits do not depend on the per-thread failure flags. -/
theorem forumVisits_setForumOutcomes (b : Bool) (f : ForumSnapshot) :
    forumVisits (setForumOutcomes b f) = forumVisits f :=
  threadVisits_setThreadOutcome b f.threads

/-- Channel lookup commutes with overwriting the failure flags. -/
theorem lookupChannel_setGuildOutcomes (b : Bool)
    (l : List (Int × Option ForumSnapshot)) (k : Int) :
    lookupChannel (l.map fun p => (p.1, p.2.map (setForumOutcomes b))) k =
      (lookupChannel l k).map (setForumOutcomes b) := by
  induction l with
  | nil => rfl
  | cons p rest ih =>
    obtain ⟨fid, o⟩ := p
    by_cases h : k = fid
    · simp [lookupChannel, h]
    · simp [lookupChannel, h, ih]

/-- The forum loop does not depend on the per-thread failure flags. -/
theorem sweepForums_setForumOutcomes (b : Bool)
    (channels : List (Int × Option ForumSnapshot)) (monitored : List Int) :
    sweepForums (channels.map fun p => (p.1, p.2.map (setForumOutcomes b)))
      monitored = sweepForums channels monitored := by
  unfold sweepForums
  refine congrArg List.flatten ?_
  apply List.map_congr_left
  intro fid _
  rw [lookupChannel_setGuildOutcomes]
  rcases lookupChannel channels fid with _ | forum
  · rfl
  · exact forumVisits_setForumOutcomes b forum

/-- A guild's sweep does not depend on the per-thread failure flags. -/
theorem sweepGuild_setGuildOutcomes (b : Bool) (g : GuildSnapshot) :
    sweepGuild (setGuildOutcomes b g) = sweepGuild g := by
  show sweepWithSettings g.configFetch
    (g.channels.map fun p => (p.1, p.2.map (setForumOutcomes b)))
    g.settingsFetch = sweepWithSettings g.configFetch g.channels g.settingsFetch
  rcases g.settingsFetch with e | s
  · rfl
  · rcases s with _ | s
    · rfl
    · show (if s.enabled = false then Except.ok []
        else sweepWithConfig (g.channels.map fun p =>
          (p.1, p.2.map (setForumOutcomes b))) g.configFetch) =
        (if s.enabled = false then Except.ok []
          else sweepWithConfig g.channels g.configFetch)
      by_cases hs : s.enabled = false
      · rw [if_pos hs, if_pos hs]
      · rw [if_neg hs, if_neg hs]
        rcases g.configFetch with e | c
        · rfl
        · rcases c with _ | c
          · rfl
          · show (if c.monitored_channels = [] then Except.ok []
              else Except.ok (sweepForums (g.channels.map fun p =>
                (p.1, p.2.map (setForumOutcomes b))) c.monitored_channels)) =
              (if c.monitored_channels = [] then Except.ok []
                else Except.ok (sweepForums g.channels c.monitored_channels))
            by_cases hc : c.monitored_channels = []
            · rw [if_pos hc, if_pos hc]
            · rw [if_neg hc, if_neg hc,
                sweepForums_setForumOutcomes]

/-- C9 amended: a per-thread exception is caught inside
`check_thread_for_escalation`, so the set of threads visited in a tick is
independent of which per-thread bodies fail, and no error propagates out
of the periodic task (its outer handler swallows everything); but
guild-level isolation does not hold — when one guild's settings or config
fetch raises, only the guilds before it are visited that tick, and the
failing guild and all later guilds are skipped. -/
theorem checkStaleThreads_isolation :
    (∀ (guilds : List GuildSnapshot) (b : Bool),
      checkStaleThreads (guilds.map (setGuildOutcomes b)) =
        checkStaleThreads guilds) ∧
    (∀ (gs1 gs2 : List GuildSnapshot) (g : GuildSnapshot),
      (∀ h ∈ gs1, ∃ vs, sweepGuild h = Except.ok vs) →
      sweepGuild g = Except.error () →
      checkStaleThreads (gs1 ++ g :: gs2) = checkStaleThreads gs1) := by
  have hcons : ∀ (g : GuildSnapshot) (rest : List GuildSnapshot),
      sweepAll (g :: rest) = (match sweepGuild g with
        | Except.error _ => (([] : List Int), true)
        | Except.ok vs => (vs ++ (sweepAll rest).1, (sweepAll rest).2)) :=
    fun _ _ => rfl
  constructor
  · intro guilds b
    unfold checkStaleThreads
    induction guilds with
    | nil => rfl
    | cons g rest ih =>
      rw [List.map_cons, hcons, hcons, sweepGuild_setGuildOutcomes]
      rcases hsw : sweepGuild g with e | vs
      · rfl
      · show vs ++ (sweepAll (rest.map (setGuildOutcomes b))).1 =
          vs ++ (sweepAll rest).1
        rw [ih]
  · intro gs1 gs2 g
    induction gs1 with
    | nil =>
      intro _ hg
      show (sweepAll (g :: gs2)).1 = ([] : List Int)
      rw [hcons, hg]
    | cons h0 rest ih =>
      intro hok hg
      obtain ⟨vs, hvs⟩ := hok h0 (List.mem_cons_self h0 rest)
      have ih' := ih (fun h hm => hok h (List.mem_cons_of_mem h0 hm)) hg
      show (sweepAll (h0 :: (rest ++ g :: gs2))).1 = (sweepAll (h0 :: rest)).1
      rw [hcons, hcons, hvs]
      show vs ++ checkStaleThreads (rest ++ g :: gs2) =
        vs ++ checkStaleThreads rest
      rw [ih']

/-- Witness for the amended C9: the healthy guild's visits are unchanged
when its per-thread failure flags are all cleared, and a failing guild
placed after the healthy guild leaves the healthy guild's sweep intact. -/
theorem checkStaleThreads_isolation_witness :
    checkStaleThreads ([healthyGuild].map (setGuildOutcomes false)) =
      checkStaleThreads [healthyGuild] ∧
    checkStaleThreads ([healthyGuild] ++ failingGuild :: []) =
      checkStaleThreads [healthyGuild] :=
  ⟨checkStaleThreads_isolation.1 [healthyGuild] false,
    checkStaleThreads_isolation.2 [healthyGuild] [] failingGuild
      (by
        intro h hm
        rw [List.mem_singleton] at hm
        subst hm
        exact ⟨[42], rfl⟩)
      rfl⟩

end ForumGuard
